import Mathlib

/-!
Verification of the griffe AST-extraction and git-worktree modules.

This file shallowly embeds the two source modules of the repository,
src/griffe/node_utils.py and src/griffe/git.py, and proves properties of
the embedded definitions.

Conventions of the embedding:
* Python AST nodes become inductive types.  The value renderer models a
  representative subset of the dispatch-table entries of node_utils.py
  (the subset covers every node kind a claim mentions); the constructor
  PyExpr.unknown stands for any node kind outside the modelled subset
  that is also absent from the corresponding dispatch table, such as
  ast.Add or ast.Gt for the value table.
* A Python dict lookup that can raise KeyError (a LookupError) is
  modelled with Except PyErr; the dispatchers return Except values and
  errors propagate through the monad exactly as Python exceptions
  propagate out of the recursive handler calls.
* Machine-level details (source positions, column offsets) are Nat.
-/

namespace Griffe

/-- Python constant values appearing in ast.Constant nodes. -/
inductive PyConst where
  | noneC
  | boolC (b : Bool)
  | intC (n : Int)
  | strC (s : String)
  | ellipsisC
deriving DecidableEq

/-- The apostrophe character used by Python repr of strings. -/
def pyQuote : String := String.singleton (Char.ofNat 39)

/-- Python repr of a constant value (as used by the handlers that call
repr(node.value)). -/
def pyRepr : PyConst → String
  | .noneC => "None"
  | .boolC true => "True"
  | .boolC false => "False"
  | .intC n => toString n
  | .strC s => pyQuote ++ s ++ pyQuote
  | .ellipsisC => "Ellipsis"

/-- Python exceptions raised by the embedded node_utils functions.
KeyError (a LookupError) carries the missing key, here the name of the
node kind used as dispatch key; IndexError models out-of-range list
indexing. -/
inductive PyErr where
  | keyError (key : String)
  | indexError
deriving DecidableEq

/-- The Python AST expression nodes modelled from node_utils.py.  Each
constructor corresponds to one ast class; operator classes (ast.BitOr,
ast.Mult, ...) are modelled as nullary constructors because the source
dispatches them through the same tables.  PyExpr.unknown k stands for a
node of any kind k outside this modelled subset that is not registered
in the dispatch table under consideration. -/
inductive PyExpr where
  | name (id : String)
  | constant (value : PyConst)
  | attribute (value : PyExpr) (attr : String)
  | binOp (left : PyExpr) (op : PyExpr) (right : PyExpr)
  | unaryOp (op : PyExpr) (operand : PyExpr)
  | subscript (value : PyExpr) (slice : PyExpr)
  | listNode (elts : List PyExpr)
  | tuple (elts : List PyExpr)
  | slice (lower : Option PyExpr) (upper : Option PyExpr) (step : Option PyExpr)
  | starred (value : PyExpr)
  | keyword (arg : String) (value : PyExpr)
  | bitOr
  | bitAnd
  | mult
  | uSub
  | uAdd
  | notOp
  | orOp
  | andOp
  | notEq
  | unknown (kind : String)

/-- The name of the ast class of a node: the dispatch key type(node). -/
def kindOf : PyExpr → String
  | .name _ => "Name"
  | .constant _ => "Constant"
  | .attribute _ _ => "Attribute"
  | .binOp _ _ _ => "BinOp"
  | .unaryOp _ _ => "UnaryOp"
  | .subscript _ _ => "Subscript"
  | .listNode _ => "List"
  | .tuple _ => "Tuple"
  | .slice _ _ _ => "Slice"
  | .starred _ => "Starred"
  | .keyword _ _ => "keyword"
  | .bitOr => "BitOr"
  | .bitAnd => "BitAnd"
  | .mult => "Mult"
  | .uSub => "USub"
  | .uAdd => "UAdd"
  | .notOp => "Not"
  | .orOp => "Or"
  | .andOp => "And"
  | .notEq => "NotEq"
  | .unknown kind => kind

/-- Python str.join: sep.join(parts). -/
def strJoin (sep : String) : List String → String
  | [] => ""
  | [x] => x
  | x :: xs => x ++ sep ++ strJoin sep xs

/-- Python str.strip(chars): remove every leading and every trailing
character belonging to the character set cs. -/
def pyStripChars (cs : List Char) (s : String) : String :=
  ⟨((s.data.dropWhile (fun c => cs.contains c)).reverse.dropWhile
      (fun c => cs.contains c)).reverse⟩

/-- The two parenthesis characters, the argument of .strip in
the subscript-value handler of node_utils.py. -/
def parenChars : List Char := [Char.ofNat 40, Char.ofNat 41]

mutual

/-- The value renderer of node_utils.py restricted to non-None nodes:
the body of get_value for an actual node, dispatching on type(node)
through _node_value_map.  Each arm is the handler named in the source
(_get_name_value, _get_constant_value, ...); an arm absent from the
source table (the final catch-all) raises KeyError on the dispatch key,
as a Python dict lookup does.  Errors raised by recursive calls
propagate unchanged, as Python exceptions do. -/
def get_value_node : PyExpr → Except PyErr String
  | .name id => .ok id
  | .constant v => .ok (pyRepr v)
  | .attribute v attr => do
      let vs ← get_value_node v
      .ok (vs ++ "." ++ attr)
  | .binOp l op r => do
      let ls ← get_value_node l
      let ops ← get_value_node op
      let rs ← get_value_node r
      .ok (ls ++ " " ++ ops ++ " " ++ rs)
  | .unaryOp op operand => do
      let ops ← get_value_node op
      let vs ← get_value_node operand
      .ok (ops ++ vs)
  | .subscript v s => do
      let vs ← get_value_node v
      let ss ← get_value_node s
      .ok (vs ++ "[" ++ pyStripChars parenChars ss ++ "]")
  | .listNode elts => do
      let ss ← get_value_list elts
      .ok ("[" ++ strJoin ", " ss ++ "]")
  | .tuple elts => do
      let ss ← get_value_list elts
      .ok ("(" ++ strJoin ", " ss ++ ")")
  | .slice lo hi st => do
      let ls ← get_value_bound lo
      let us ← get_value_bound hi
      match st with
      | some stp => do
          let ss ← get_value_node stp
          .ok (ls ++ ":" ++ us ++ ":" ++ ss)
      | none => .ok (ls ++ ":" ++ us)
  | .starred v => get_value_node v
  | .keyword arg v => do
      let vs ← get_value_node v
      .ok (arg ++ "=" ++ vs)
  | .bitOr => .ok "|"
  | .mult => .ok "*"
  | .uSub => .ok "-"
  | .uAdd => .ok "+"
  | .notOp => .ok "not "
  | .orOp => .ok " or "
  | .andOp => .ok " and "
  | .notEq => .ok "!="
  | n => .error (.keyError (kindOf n))

/-- The conditional rendering of an optional slice bound used by
_get_slice_value: get_value(node.lower) if node.lower else the empty
string. -/
def get_value_bound : Option PyExpr → Except PyErr String
  | some n => get_value_node n
  | none => .ok ""

/-- Rendering of a list of child nodes (the generator expressions inside
_get_list_value, _get_tuple_value): the first failing child aborts, as
the first raised Python exception does. -/
def get_value_list : List PyExpr → Except PyErr (List String)
  | [] => .ok []
  | x :: xs => do
      let s ← get_value_node x
      let ss ← get_value_list xs
      .ok (s :: ss)

end

/-- get_value of node_utils.py.  Its argument may be the Python value
None (Option.none here): _node_value_map has an explicit entry for
type(None), mapping it to repr(None). -/
def get_value : Option PyExpr → Except PyErr String
  | none => .ok (pyRepr PyConst.noneC)
  | some n => get_value_node n

/-- The keys of _node_value_map restricted to the modelled subset of
node kinds (the source table additionally registers kinds such as Call
or Dict which this embedding does not model; "NoneType" is handled at
the Option level by get_value). -/
def valueKeys : List String :=
  ["Name", "Constant", "Attribute", "BinOp", "UnaryOp", "Subscript",
   "List", "Tuple", "Slice", "Starred", "keyword", "BitOr", "Mult",
   "USub", "UAdd", "Not", "Or", "And", "NotEq"]

/-- Modelled from the spec: the Expression and Name classes live in
griffe/expressions.py, which is not under src/.  Per the spec, an
Expression is an ordered sequence of fragments, each a literal string
token or a Name reference, and nested Expressions flatten into the
parent sequence; a Name carries the literal source spelling plus a lazy
resolver closing over the external parent object.  The resolver and the
parent are external collaborators and are not modelled; a Name here is
its literal spelling. -/
inductive Frag where
  | lit (s : String)
  | nm (source : String)
deriving DecidableEq

/-- Result type of get_baseclass: a Name or an Expression. -/
inductive BCResult where
  | nameR (source : String)
  | exprR (fragments : List Frag)
deriving DecidableEq

/-- Fragment sequence of a get_baseclass result, as it flattens when
used inside an enclosing Expression. -/
def BCResult.toFrags : BCResult → List Frag
  | .nameR s => [.nm s]
  | .exprR fs => fs

/-- get_baseclass of node_utils.py, dispatching through
_node_baseclass_map (keys: Name, Attribute, Subscript).  Each arm is
the source handler (_get_baseclass_name, _get_baseclass_attribute,
_get_baseclass_subscript); any other kind raises KeyError from the
dict lookup. -/
def get_baseclass : PyExpr → Except PyErr BCResult
  | .name id => .ok (.nameR id)
  | .attribute v attr => do
      let left ← get_baseclass v
      .ok (.exprR (left.toFrags ++ [Frag.lit ".", Frag.nm attr]))
  | .subscript v s => do
      let left ← get_baseclass v
      let sub ← get_baseclass s
      .ok (.exprR (left.toFrags ++ [Frag.lit "["] ++ sub.toFrags ++ [Frag.lit "]"]))
  | n => .error (.keyError (kindOf n))

/-- The keys of _node_baseclass_map. -/
def baseclassKeys : List String := ["Name", "Attribute", "Subscript"]

/-- Result type of the annotation resolver: a plain string, a Name or
an Expression. -/
inductive AnnResult where
  | strR (s : String)
  | nameR (source : String)
  | exprR (fragments : List Frag)
deriving DecidableEq

/-- Fragment sequence of an annotation result inside an enclosing
Expression. -/
def AnnResult.toFrags : AnnResult → List Frag
  | .strR s => [.lit s]
  | .nameR s => [.nm s]
  | .exprR fs => fs

/-- The _join helper of node_utils.py: interleave item between the
elements of sequence. -/
def pyJoin {α : Type} (sequence : List α) (item : α) : List α :=
  match sequence with
  | [] => []
  | x :: rest => x :: rest.flatMap (fun element => [item, element])

mutual

/-- The annotation resolver get_annotation of node_utils.py (renamed
get_annot here), dispatching through _node_annotation_map on the
modern grammar, where the version-conditional Index entry is absent
(keys: Name, Constant, Attribute, BinOp, BitOr, BitAnd, Subscript,
Tuple, List).  Each arm is the corresponding source handler; any other
kind raises KeyError from the dict lookup. -/
def get_annot : PyExpr → Except PyErr AnnResult
  | .name id => .ok (.nameR id)
  | .constant v => .ok (.strR (pyRepr v))
  | .attribute v attr => do
      let left ← get_annot v
      .ok (.exprR (left.toFrags ++ [Frag.lit ".", Frag.nm attr]))
  | .binOp l op r => do
      let left ← get_annot l
      let right ← get_annot r
      let opv ← get_annot op
      .ok (.exprR (left.toFrags ++ opv.toFrags ++ right.toFrags))
  | .bitOr => .ok (.strR " | ")
  | .bitAnd => .ok (.strR " & ")
  | .subscript v s => do
      let left ← get_annot v
      let sub ← get_annot s
      .ok (.exprR (left.toFrags ++ [Frag.lit "["] ++ sub.toFrags ++ [Frag.lit "]"]))
  | .tuple elts => do
      let rs ← get_annot_list elts
      .ok (.exprR ((pyJoin rs (.strR ", ")).map AnnResult.toFrags).flatten)
  | .listNode elts => do
      let rs ← get_annot_list elts
      .ok (.exprR ([Frag.lit "["] ++ ((pyJoin rs (.strR ", ")).map AnnResult.toFrags).flatten ++ [Frag.lit "]"]))
  | n => .error (.keyError (kindOf n))

/-- Annotation resolution of a list of child nodes (the list
comprehensions inside _get_tuple_annotation, _get_list_annotation). -/
def get_annot_list : List PyExpr → Except PyErr (List AnnResult)
  | [] => .ok []
  | x :: xs => do
      let r ← get_annot x
      let rs ← get_annot_list xs
      .ok (r :: rs)

end

/-- The keys of _node_annotation_map on the modern grammar. -/
def annotKeys : List String :=
  ["Name", "Constant", "Attribute", "BinOp", "BitOr", "BitAnd",
   "Subscript", "Tuple", "List"]

/-- get_name of node_utils.py, dispatching through _node_name_map
(keys: Name, Attribute); any other kind raises KeyError. -/
def get_name : PyExpr → Except PyErr String
  | .name id => .ok id
  | .attribute v attr => do
      let s ← get_name v
      .ok (s ++ "." ++ attr)
  | n => .error (.keyError (kindOf n))

/-- The Python AST statement nodes modelled for get_names: the keys of
_node_names_map (Assign, AnnAssign) plus PyStmt.unknownStmt for any
other statement kind.  Fields not inspected by get_names (the assigned
value, the AnnAssign annotation) are carried for fidelity. -/
inductive PyStmt where
  | assign (targets : List PyExpr) (value : PyExpr)
  | annAssign (target : PyExpr) (ann : PyExpr) (value : Option PyExpr)
  | unknownStmt (kind : String)

/-- The ast class name of a statement node: the dispatch key. -/
def stmtKindOf : PyStmt → String
  | .assign _ _ => "Assign"
  | .annAssign _ _ _ => "AnnAssign"
  | .unknownStmt kind => kind

/-- get_names of node_utils.py, dispatching through _node_names_map.
_get_assign_names maps get_name over the targets and keeps the truthy
(non-empty) names; _get_annassign_names wraps the single target name
unless it is falsy; any other kind raises KeyError from the dict
lookup. -/
def get_names : PyStmt → Except PyErr (List String)
  | .assign targets _ => do
      let names ← targets.mapM get_name
      .ok (names.filter (fun nm => nm ≠ ""))
  | .annAssign target _ _ => do
      let nm ← get_name target
      .ok (if nm = "" then [] else [nm])
  | s => .error (.keyError (stmtKindOf s))

/-- The keys of _node_names_map. -/
def namesKeys : List String := ["Assign", "AnnAssign"]

/-- Source position attributes carried by the docstring value node
(doc.lineno, doc.end_lineno). -/
structure DocPos where
  lineno : Nat
  end_lineno : Nat
deriving DecidableEq

/-- The value of an expression statement as inspected by get_docstring:
an ast.Constant (with its constant value), a legacy ast.Str node, or
any other expression kind. -/
inductive DocExpr where
  | constant (value : PyConst) (pos : DocPos)
  | strNode (s : String) (pos : DocPos)
  | otherExpr
deriving DecidableEq

/-- A statement inside the body of a syntax unit: an ast.Expr
(expression statement) or any other statement kind. -/
inductive DocStmt where
  | exprStmt (value : DocExpr)
  | otherStmt
deriving DecidableEq

/-- The node argument of get_docstring: either itself an ast.Expr, or
a module/class/function node carrying a body. -/
inductive DocNode where
  | exprStmt (value : DocExpr)
  | unit (body : List DocStmt)
deriving DecidableEq

/-- The tail of get_docstring after doc has been selected: an
ast.Constant whose value is a str, or a legacy ast.Str node, yields
(doc value, doc.lineno, doc.end_lineno); anything else yields the
all-None triple. -/
def docFromValue : DocExpr → Option String × Option Nat × Option Nat
  | .constant (.strC s) p => (some s, some p.lineno, some p.end_lineno)
  | .strNode s p => (some s, some p.lineno, some p.end_lineno)
  | _ => (none, none, none)

/-- get_docstring of node_utils.py.  If the node is itself an ast.Expr
its value is the candidate; otherwise, when the body is non-empty, its
first statement is an ast.Expr and strict is false, that statement's
value is the candidate; otherwise the all-None triple is returned.  A
candidate that is not a string literal also yields the all-None
triple.  The function is total: no exception is raised. -/
def get_docstring (node : DocNode) (strict : Bool) :
    Option String × Option Nat × Option Nat :=
  match node with
  | .exprStmt v => docFromValue v
  | .unit body =>
    match body with
    | DocStmt.exprStmt v :: _ => if strict then (none, none, none) else docFromValue v
    | _ => (none, none, none)

/-- Node position attributes used by get_parameter_default. -/
structure NodeSpan where
  lineno : Nat
  end_lineno : Nat
  col_offset : Nat
  end_col_offset : Nat
deriving DecidableEq

/-- The default-value node of a function parameter as inspected by
get_parameter_default: an ast.Constant, an ast.Name, or an expression
of any other kind, each with its position attributes. -/
inductive DefaultNode where
  | constant (value : PyConst) (span : NodeSpan)
  | name (id : String) (span : NodeSpan)
  | otherNode (kind : String) (span : NodeSpan)
deriving DecidableEq

/-- Python string slicing line[a:b] for non-negative offsets, clamping
at the string length as Python does. -/
def pySlice (s : String) (a b : Nat) : String :=
  ⟨(s.data.drop a).take (b - a)⟩

/-- get_parameter_default of node_utils.py.  The lines argument is
lines_collection[filepath], the line sequence of the file (the
collection lookup itself is external).  Rules in source order: no node
yields None; an ast.Constant yields repr of its value; an ast.Name
yields its id; any other node on a single line yields the column slice
of that line, where an out-of-range line index raises IndexError as
Python list indexing does; a node spanning several lines yields None
(unhandled case). -/
def get_parameter_default (node : Option DefaultNode) (lines : List String) :
    Except PyErr (Option String) :=
  match node with
  | none => .ok none
  | some (.constant v _) => .ok (some (pyRepr v))
  | some (.name id _) => .ok (some id)
  | some (.otherNode _ span) =>
    if span.lineno = span.end_lineno then
      match lines[span.lineno - 1]? with
      | some line => .ok (some (pySlice line span.col_offset span.end_col_offset))
      | none => .error .indexError
    else
      .ok none

/-- The environment a tmp_worktree run interacts with: whether the git
executable is found by shutil.which, whether the rev-parse probe exits
zero, and the exit codes and stderr of the git subprocesses.  Exit
codes of the three cleanup commands are recorded although the source
never inspects them. -/
structure GitEnv where
  gitAvailable : Bool
  repoIsGit : Bool
  addExit : Nat
  addStderr : String
  removeExit : Nat
  pruneExit : Nat
  deleteExit : Nat
deriving DecidableEq

/-- Observable actions of one tmp_worktree run, in order: the
shutil.which probe, the rev-parse repository probe, creation and
removal of the temporary directory (the with TemporaryDirectory
block), the git worktree add call, yielding the path to the caller,
and the three cleanup subprocesses of the finally block. -/
inductive GitAction where
  | checkGitExists (found : Bool)
  | probeIsInsideWorkTree (repo : String) (ok : Bool)
  | mkTempDir (td : String)
  | worktreeAdd (repo : String) (uid : String) (target : String) (ref : String) (exit : Nat)
  | yieldPath (target : String)
  | worktreeRemove (repo : String) (uid : String) (exit : Nat)
  | worktreePrune (repo : String) (exit : Nat)
  | branchDelete (repo : String) (uid : String) (exit : Nat)
  | rmTempDir (td : String)
deriving DecidableEq

/-- Python exceptions that can escape tmp_worktree: its own
RuntimeError and OSError, or an exception raised by the caller's block
inside the with statement (fromCaller). -/
inductive PyExc where
  | runtimeError (msg : String)
  | osError (msg : String)
  | fromCaller (e : String)
deriving DecidableEq

/-- Outcome of the caller's block run with the yielded path. -/
inductive BodyOutcome where
  | normal
  | raised (e : String)
deriving DecidableEq

/-- Overall result of a tmp_worktree run: normal completion with the
worktree path that was yielded, or an escaping exception. -/
inductive WtResult where
  | ok (target : String)
  | exc (e : PyExc)
deriving DecidableEq

/-- Message of the RuntimeError raised when git is missing. -/
def gitMissingMsg : String := "Could not find git executable. Please install git."

/-- Python repr of a string, used by the f-string for the OSError
message (repo written with !r). -/
def pyReprStr (s : String) : String := pyQuote ++ s ++ pyQuote

/-- Message of the OSError raised when the rev-parse probe fails. -/
def notARepoMsg (repo : String) : String := "Not a git repository: " ++ pyReprStr repo

/-- Message of the RuntimeError raised when git worktree add fails,
wrapping the subprocess stderr text. -/
def addFailMsg (stderr : String) : String := "Could not create git worktree: " ++ stderr

/-- _assert_git_repo of git.py: the shutil.which check raises
RuntimeError when git is absent (before anything else); then the
rev-parse probe raises OSError when it exits non-zero.  Returns the
performed actions and the raised exception, if any. -/
def _assert_git_repo (env : GitEnv) (repo : String) : List GitAction × Option PyExc :=
  if env.gitAvailable then
    if env.repoIsGit then
      ([.checkGitExists true, .probeIsInsideWorkTree repo true], none)
    else
      ([.checkGitExists true, .probeIsInsideWorkTree repo false],
       some (.osError (notARepoMsg repo)))
  else
    ([.checkGitExists false], some (.runtimeError gitMissingMsg))

/-- The branch/worktree identifier derived from the reference:
uid = "griffe_" + ref. -/
def worktreeUid (ref : String) : String := "griffe_" ++ ref

/-- target = os.path.join(td, uid) for an absolute temporary directory
without trailing separator and a relative uid: concatenation with
"/". -/
def worktreeTarget (td : String) (ref : String) : String :=
  td ++ "/" ++ worktreeUid ref

/-- Modelled from the spec and the tempfile interface used by git.py:
TemporaryDirectory(prefix="griffe-worktree-") allocates a fresh
directory under the process temporary root whose basename is the given
text followed by a random suffix; the suffix contains no path
separator and differs between acquisitions. -/
def tempDirName (base : String) (suffix : String) : String :=
  base ++ "/griffe-worktree-" ++ suffix

/-- tmp_worktree of git.py as a function from the environment to the
performed actions and the final result.  repo and ref are the
arguments, td the fresh temporary directory allocated by the with
TemporaryDirectory block, and body the caller's block run with the
yielded path.  After a successful git worktree add, the three cleanup
subprocesses of the finally block run on every exit path; their exit
codes are never inspected (subprocess.run without check), so no
cleanup failure alters the result.  The temporary directory is removed
when the with block exits on any path. -/
def tmp_worktree (env : GitEnv) (repo : String) (ref : String) (td : String)
    (body : String → BodyOutcome) : List GitAction × WtResult :=
  match _assert_git_repo env repo with
  | (tr, some e) => (tr, .exc e)
  | (tr, none) =>
    let uid := worktreeUid ref
    let target := worktreeTarget td ref
    let tr2 := tr ++ [.mkTempDir td, .worktreeAdd repo uid target ref env.addExit]
    if env.addExit ≠ 0 then
      (tr2 ++ [.rmTempDir td], .exc (.runtimeError (addFailMsg env.addStderr)))
    else
      let cleanup : List GitAction :=
        [.worktreeRemove repo uid env.removeExit,
         .worktreePrune repo env.pruneExit,
         .branchDelete repo uid env.deleteExit]
      match body target with
      | .normal => (tr2 ++ [.yieldPath target] ++ cleanup ++ [.rmTempDir td], .ok target)
      | .raised e =>
          (tr2 ++ [.yieldPath target] ++ cleanup ++ [.rmTempDir td], .exc (.fromCaller e))

/-- The mapping from the caller's block outcome to the result of the
whole tmp_worktree scope when creation succeeded: normal completion
returns normally, a caller exception propagates unchanged. -/
def mapBodyOutcome (target : String) : BodyOutcome → WtResult
  | .normal => .ok target
  | .raised e => .exc (.fromCaller e)

/-- The three cleanup subprocesses of the finally block, in source
order. -/
def cleanupSeq (env : GitEnv) (repo : String) (uid : String) : List GitAction :=
  [.worktreeRemove repo uid env.removeExit,
   .worktreePrune repo env.pruneExit,
   .branchDelete repo uid env.deleteExit]

/-- Modelled from the spec: the claimed stripping of exactly the
wrapping parentheses of a rendering, used to compare the claim
against the source behaviour of _get_subscript_value.  Removes the one
enclosing pair when the text both starts with an opening and ends with
a closing parenthesis, and otherwise leaves the text unchanged, so the
inner text is never altered.  (At the counterexample input below,
iterating this removal would make no difference, so the refutation
holds under either reading of the claim.) -/
def stripWrappingParens (s : String) : String :=
  if s.data.head? = some (Char.ofNat 40) ∧ s.data.getLast? = some (Char.ofNat 41) then
    ⟨(s.data.drop 1).dropLast⟩
  else
    s

/-- Whether a candidate docstring value qualifies as a string literal
for get_docstring: an ast.Constant whose value is a str, or a legacy
ast.Str node. -/
def isStringLit : DocExpr → Bool
  | .constant (.strC _) _ => true
  | .strNode _ _ => true
  | _ => false

end Griffe

namespace Griffe

theorem exbind_ok {α β : Type} (a : α) (f : α → Except PyErr β) :
    (Except.ok a >>= f : Except PyErr β) = f a := rfl

theorem exbind_err {α β : Type} (e : PyErr) (f : α → Except PyErr β) :
    ((Except.error e : Except PyErr α) >>= f) = (Except.error e : Except PyErr β) := rfl

/-- C9: get_value accepts the absent node (Python None) and returns the
string "None" through the explicit type(None) entry of the dispatch
table, instead of raising the lookup failure. -/
theorem claim_C9_none_value : get_value none = Except.ok "None" := rfl

/-- C10: the value renderer maps a starred node *x to exactly the
rendering of its inner operand: the star token is dropped. -/
theorem claim_C10_starred_drops_star :
    (∀ v, get_value_node (PyExpr.starred v) = get_value_node v) ∧
    get_value_node (PyExpr.starred (PyExpr.name "x")) = Except.ok "x" := by
  constructor
  · intro v
    simp [get_value_node]
  · simp [get_value_node]

/-- C7: the slice renderer yields lower ++ ":" ++ upper, with an absent
bound rendered as the empty string, and appends ":" ++ step exactly
when a step is present; in particular the slices of a[:5], a[2:5:2]
and a[:] render as ":5", "2:5:2" and ":". -/
theorem claim_C7_slice_rendering :
    (∀ lo hi ls us, get_value_bound lo = Except.ok ls →
        get_value_bound hi = Except.ok us →
        get_value_node (PyExpr.slice lo hi none) = Except.ok (ls ++ ":" ++ us)) ∧
    (∀ lo hi stp ls us ss, get_value_bound lo = Except.ok ls →
        get_value_bound hi = Except.ok us → get_value_node stp = Except.ok ss →
        get_value_node (PyExpr.slice lo hi (some stp)) =
          Except.ok (ls ++ ":" ++ us ++ ":" ++ ss)) ∧
    get_value_bound none = Except.ok "" ∧
    get_value_node (PyExpr.slice none (some (.constant (.intC 5))) none) = Except.ok ":5" ∧
    get_value_node (PyExpr.slice (some (.constant (.intC 2))) (some (.constant (.intC 5)))
        (some (.constant (.intC 2)))) = Except.ok "2:5:2" ∧
    get_value_node (PyExpr.slice none none none) = Except.ok ":" := by
  refine ⟨?_, ?_, rfl, ?_, ?_, ?_⟩
  · intro lo hi ls us hlo hhi
    simp [get_value_node, hlo, hhi, exbind_ok]
  · intro lo hi stp ls us ss hlo hhi hst
    simp [get_value_node, hlo, hhi, hst, exbind_ok]
  · simp [get_value_node, get_value_bound, pyRepr, exbind_ok]
    decide
  · simp [get_value_node, get_value_bound, pyRepr, exbind_ok]
    decide
  · simp [get_value_node, get_value_bound, exbind_ok]

/-- C7 witness: the slice renderer applied to concrete bounds. -/
theorem claim_C7_witness :
    get_value_node (PyExpr.slice (some (.name "a")) (some (.name "b"))
        (some (.name "c"))) = Except.ok ("a" ++ ":" ++ "b" ++ ":" ++ "c") :=
  claim_C7_slice_rendering.2.1 (some (.name "a")) (some (.name "b")) (.name "c")
    "a" "b" "c" (by simp [get_value_bound, get_value_node])
    (by simp [get_value_bound, get_value_node]) (by simp [get_value_node])

end Griffe

namespace Griffe

/-- C6 counterexample: for the subscript x[(1,), 2] the slice renders
as "((1), 2)" (the one-element inner tuple renders as "(1)"), and the
source strips every leading and trailing parenthesis character, giving
"x[1), 2]"; removing only the wrapping parentheses as the claim states
would give "x[(1), 2]", a different string with the inner text
unchanged. -/
theorem claim_C6_counterexample :
    get_value_node (PyExpr.subscript (.name "x")
        (.tuple [.tuple [.constant (.intC 1)], .constant (.intC 2)])) =
      Except.ok "x[1), 2]" ∧
    get_value_node (PyExpr.tuple [.tuple [.constant (.intC 1)], .constant (.intC 2)]) =
      Except.ok "((1), 2)" ∧
    stripWrappingParens "((1), 2)" = "(1), 2" ∧
    ("x[" ++ stripWrappingParens "((1), 2)" ++ "]" : String) ≠ "x[1), 2]" := by
  refine ⟨?_, ?_, ?_, ?_⟩
  · simp [get_value_node, get_value_list, pyRepr, strJoin, pyStripChars, parenChars, exbind_ok]
    decide
  · simp [get_value_node, get_value_list, pyRepr, strJoin, exbind_ok]
    decide
  · decide
  · decide

/-- C6 amended: the value renderer maps a subscript node to
value ++ "[" ++ slice ++ "]" where the slice rendering has every
leading and every trailing parenthesis character removed (Python
str.strip semantics over the character set of both parentheses), not
merely its wrapping pair. -/
theorem claim_C6_subscript_strip :
    ∀ v s vs ss, get_value_node v = Except.ok vs → get_value_node s = Except.ok ss →
      get_value_node (PyExpr.subscript v s) =
        Except.ok (vs ++ "[" ++ pyStripChars parenChars ss ++ "]") := by
  intro v s vs ss hv hs
  simp [get_value_node, hv, hs, exbind_ok]

/-- C6 witness: the subscript renderer applied to a concrete node. -/
theorem claim_C6_witness :
    get_value_node (PyExpr.subscript (.name "d") (.tuple [.name "a", .name "b"])) =
      Except.ok ("d" ++ "[" ++ pyStripChars parenChars "(a, b)" ++ "]") :=
  claim_C6_subscript_strip (.name "d") (.tuple [.name "a", .name "b"]) "d" "(a, b)"
    (by simp [get_value_node])
    (by simp [get_value_node, get_value_list, strJoin, exbind_ok])

/-- C3: get_parameter_default returns None for an absent node, the
literal repr for a constant, the identifier for a bare name, the
column slice of the single source line for any other single-line
expression (so a trailing comment past the end column is excluded:
the default 1+1 of the line x: int = 1+1  # comment yields exactly
"1+1"), and None for an expression spanning several lines. -/
theorem claim_C3_parameter_default :
    (∀ lines, get_parameter_default none lines = Except.ok none) ∧
    (∀ v span lines, get_parameter_default (some (.constant v span)) lines =
        Except.ok (some (pyRepr v))) ∧
    (∀ id span lines, get_parameter_default (some (.name id span)) lines =
        Except.ok (some id)) ∧
    (∀ k span lines line, span.lineno = span.end_lineno →
        lines[span.lineno - 1]? = some line →
        get_parameter_default (some (.otherNode k span)) lines =
          Except.ok (some (pySlice line span.col_offset span.end_col_offset))) ∧
    (∀ k span lines, span.lineno ≠ span.end_lineno →
        get_parameter_default (some (.otherNode k span)) lines = Except.ok none) ∧
    get_parameter_default (some (.otherNode "BinOp" ⟨1, 1, 9, 12⟩))
        ["x: int = 1+1  # comment"] = Except.ok (some "1+1") := by
  refine ⟨fun lines => rfl, fun v span lines => rfl, fun id span lines => rfl, ?_, ?_, ?_⟩
  · intro k span lines line hline hgot
    rw [hline] at hgot
    simp [get_parameter_default, hline, hgot]
  · intro k span lines hne
    simp [get_parameter_default, hne]
  · simp [get_parameter_default, pySlice]

/-- C3 witness: the single-line slicing rule applied to a concrete
node and line, and the multi-line rule applied to a two-line node. -/
theorem claim_C3_witness :
    get_parameter_default (some (.otherNode "IfExp" ⟨1, 1, 0, 2⟩)) ["abcd"] =
      Except.ok (some (pySlice "abcd" 0 2)) ∧
    get_parameter_default (some (.otherNode "Call" ⟨1, 2, 4, 1⟩)) ["abcd", "ef"] =
      Except.ok none :=
  ⟨claim_C3_parameter_default.2.2.2.1 "IfExp" ⟨1, 1, 0, 2⟩ ["abcd"] "abcd" rfl rfl,
   claim_C3_parameter_default.2.2.2.2.1 "Call" ⟨1, 2, 4, 1⟩ ["abcd", "ef"] (by decide)⟩

/-- C2: get_docstring returns the text and line span when the node is
itself an expression statement whose value is a string literal
(Constant-with-str or legacy Str), or, only when strict is false, when
the first statement of the node's body is such an expression
statement; in every other case, including strict = true with a
non-empty body and a value that is not a string literal, it returns
the all-None triple, and it never raises (it is a total function). -/
theorem claim_C2_docstring :
    (∀ s p b, get_docstring (.exprStmt (.constant (.strC s) p)) b =
        (some s, some p.lineno, some p.end_lineno)) ∧
    (∀ s p b, get_docstring (.exprStmt (.strNode s p)) b =
        (some s, some p.lineno, some p.end_lineno)) ∧
    (∀ v b, isStringLit v = false →
        get_docstring (.exprStmt v) b = (none, none, none)) ∧
    (∀ s p rest, get_docstring (.unit (DocStmt.exprStmt (.constant (.strC s) p) :: rest))
        false = (some s, some p.lineno, some p.end_lineno)) ∧
    (∀ s p rest, get_docstring (.unit (DocStmt.exprStmt (.strNode s p) :: rest)) false =
        (some s, some p.lineno, some p.end_lineno)) ∧
    (∀ body, get_docstring (.unit body) true = (none, none, none)) ∧
    (∀ b, get_docstring (.unit []) b = (none, none, none)) ∧
    (∀ rest b, get_docstring (.unit (DocStmt.otherStmt :: rest)) b = (none, none, none)) ∧
    (∀ v rest b, isStringLit v = false →
        get_docstring (.unit (DocStmt.exprStmt v :: rest)) b = (none, none, none)) := by
  refine ⟨fun s p b => rfl, fun s p b => rfl, ?_, fun s p rest => rfl, fun s p rest => rfl,
    ?_, fun b => rfl, fun rest b => rfl, ?_⟩
  · intro v b h
    cases v with
    | constant c p => cases c <;> simp_all [isStringLit, get_docstring, docFromValue]
    | strNode s p => simp [isStringLit] at h
    | otherExpr => simp [get_docstring, docFromValue]
  · intro body
    cases body with
    | nil => rfl
    | cons hd tl => cases hd <;> simp [get_docstring]
  · intro v rest b h
    cases v with
    | constant c p => cases c <;> simp_all [isStringLit, get_docstring, docFromValue]
    | strNode s p => simp [isStringLit] at h
    | otherExpr => cases b <;> simp [get_docstring, docFromValue]

/-- C2 witness: a non-string expression statement yields the all-None
triple, and strict = true ignores a non-empty body whose first
statement is a string-literal expression statement. -/
theorem claim_C2_witness :
    get_docstring (.exprStmt .otherExpr) true = (none, none, none) ∧
    get_docstring (.unit [DocStmt.exprStmt (.strNode "Doc." ⟨1, 1⟩)]) true =
      (none, none, none) :=
  ⟨claim_C2_docstring.2.2.1 .otherExpr true rfl,
   claim_C2_docstring.2.2.2.2.2.1 [DocStmt.exprStmt (.strNode "Doc." ⟨1, 1⟩)]⟩

end Griffe

namespace Griffe

/-- C1: each of the four dispatchers (get_baseclass, the annotation
resolver, the value renderer, get_names) raises the KeyError lookup
failure on every node whose kind is not a key of its dispatch table,
never a default value; and a failure raised inside a nested node
propagates unchanged through the enclosing handler to the caller. -/
theorem claim_C1_unregistered_kind_raises :
    (∀ n, kindOf n ∉ baseclassKeys →
        get_baseclass n = Except.error (.keyError (kindOf n))) ∧
    (∀ n, kindOf n ∉ annotKeys →
        get_annot n = Except.error (.keyError (kindOf n))) ∧
    (∀ n, kindOf n ∉ valueKeys →
        get_value_node n = Except.error (.keyError (kindOf n))) ∧
    (∀ s, stmtKindOf s ∉ namesKeys →
        get_names s = Except.error (.keyError (stmtKindOf s))) ∧
    (∀ k attr, get_value_node (PyExpr.attribute (.unknown k) attr) =
        Except.error (.keyError k)) ∧
    (∀ k attr, get_baseclass (PyExpr.attribute (.unknown k) attr) =
        Except.error (.keyError k)) := by
  refine ⟨?_, ?_, ?_, ?_, ?_, ?_⟩
  · intro n h
    cases n <;>
      first
        | (exfalso; apply h; simp [kindOf, baseclassKeys]; done)
        | simp [get_baseclass, kindOf]
  · intro n h
    cases n <;>
      first
        | (exfalso; apply h; simp [kindOf, annotKeys]; done)
        | simp [get_annot, kindOf]
  · intro n h
    cases n <;>
      first
        | (exfalso; apply h; simp [kindOf, valueKeys]; done)
        | simp [get_value_node, kindOf]
  · intro s h
    cases s <;>
      first
        | (exfalso; apply h; simp [stmtKindOf, namesKeys]; done)
        | simp [get_names, stmtKindOf]
  · intro k attr
    simp [get_value_node, kindOf, exbind_err]
  · intro k attr
    simp [get_baseclass, kindOf, exbind_err]

/-- C1 witness: concrete unregistered kinds in each table: a constant
as a base class, a starred node as an annotation, an ast.Add operator
in the value table, an unregistered statement kind in the names table. -/
theorem claim_C1_witness :
    get_baseclass (PyExpr.constant PyConst.noneC) =
      Except.error (.keyError (kindOf (PyExpr.constant PyConst.noneC))) ∧
    get_annot (PyExpr.starred (.name "x")) =
      Except.error (.keyError (kindOf (PyExpr.starred (.name "x")))) ∧
    get_value_node (PyExpr.unknown "Add") =
      Except.error (.keyError (kindOf (PyExpr.unknown "Add"))) ∧
    get_names (PyStmt.unknownStmt "AugAssign") =
      Except.error (.keyError (stmtKindOf (PyStmt.unknownStmt "AugAssign"))) :=
  ⟨claim_C1_unregistered_kind_raises.1 (PyExpr.constant PyConst.noneC) (by decide),
   claim_C1_unregistered_kind_raises.2.1 (PyExpr.starred (.name "x")) (by decide),
   claim_C1_unregistered_kind_raises.2.2.1 (PyExpr.unknown "Add") (by decide),
   claim_C1_unregistered_kind_raises.2.2.2.1 (PyStmt.unknownStmt "AugAssign") (by decide)⟩

end Griffe

namespace Griffe

theorem addFailMsg_ne_gitMissing (s : String) : addFailMsg s ≠ gitMissingMsg := by
  intro hcontra
  have hdata : (addFailMsg s).data.take 14 = gitMissingMsg.data.take 14 := by
    rw [hcontra]
  rw [show addFailMsg s = "Could not create git worktree: " ++ s from rfl,
    String.data_append, List.take_append_of_le_length (by decide)] at hdata
  exact absurd hdata (by decide)

/-- C4: when the worktree was created (git present, repo valid,
worktree add exited zero), the whole run performs exactly the probe,
creation, yield, the three cleanup steps in order and the temporary
directory removal, on both exit paths of the caller's block, for every
combination of cleanup exit codes; and the final result is exactly the
caller's own outcome, so no cleanup failure replaces it. -/
theorem claim_C4_cleanup_runs :
    ∀ env repo ref td body, env.gitAvailable = true → env.repoIsGit = true →
      env.addExit = 0 →
      tmp_worktree env repo ref td body =
        ([.checkGitExists true, .probeIsInsideWorkTree repo true, .mkTempDir td,
          .worktreeAdd repo (worktreeUid ref) (worktreeTarget td ref) ref env.addExit,
          .yieldPath (worktreeTarget td ref)] ++
          cleanupSeq env repo (worktreeUid ref) ++ [.rmTempDir td],
         mapBodyOutcome (worktreeTarget td ref) (body (worktreeTarget td ref))) := by
  intro env repo ref td body h1 h2 h3
  rcases hb : body (worktreeTarget td ref) with _ | e <;>
    simp [tmp_worktree, _assert_git_repo, h1, h2, h3, cleanupSeq, mapBodyOutcome, hb]

/-- C4 witness: a run whose caller's block raises, with non-zero
cleanup exit codes: all cleanup steps appear and the caller's
exception is the result. -/
theorem claim_C4_witness :
    tmp_worktree ⟨true, true, 0, "", 1, 2, 3⟩ "r" "v1" "/tmp/t" (fun _ => .raised "boom") =
      ([.checkGitExists true, .probeIsInsideWorkTree "r" true, .mkTempDir "/tmp/t",
        .worktreeAdd "r" (worktreeUid "v1") (worktreeTarget "/tmp/t" "v1") "v1" 0,
        .yieldPath (worktreeTarget "/tmp/t" "v1")] ++
        cleanupSeq ⟨true, true, 0, "", 1, 2, 3⟩ "r" (worktreeUid "v1") ++
        [.rmTempDir "/tmp/t"],
       mapBodyOutcome (worktreeTarget "/tmp/t" "v1")
         ((fun _ => BodyOutcome.raised "boom") (worktreeTarget "/tmp/t" "v1"))) :=
  claim_C4_cleanup_runs ⟨true, true, 0, "", 1, 2, 3⟩ "r" "v1" "/tmp/t"
    (fun _ => .raised "boom") rfl rfl rfl

/-- C5: the entry protocol of tmp_worktree: a RuntimeError with the
missing-git message exactly when git is absent, raised before the
temporary directory exists; otherwise an OSError with the
not-a-repository message exactly when the validity probe fails;
otherwise a RuntimeError wrapping the stderr text exactly when
worktree creation fails; otherwise the worktree path is yielded. -/
theorem claim_C5_entry_protocol :
    ∀ env repo ref td body,
      (env.gitAvailable = false →
        tmp_worktree env repo ref td body =
          ([.checkGitExists false], .exc (.runtimeError gitMissingMsg))) ∧
      ((tmp_worktree env repo ref td body).2 = .exc (.runtimeError gitMissingMsg) ↔
        env.gitAvailable = false) ∧
      ((tmp_worktree env repo ref td body).2 = .exc (.osError (notARepoMsg repo)) ↔
        (env.gitAvailable = true ∧ env.repoIsGit = false)) ∧
      ((tmp_worktree env repo ref td body).2 =
          .exc (.runtimeError (addFailMsg env.addStderr)) ↔
        (env.gitAvailable = true ∧ env.repoIsGit = true ∧ env.addExit ≠ 0)) ∧
      ((GitAction.yieldPath (worktreeTarget td ref) ∈ (tmp_worktree env repo ref td body).1) ↔
        (env.gitAvailable = true ∧ env.repoIsGit = true ∧ env.addExit = 0)) := by
  intro env repo ref td body
  rcases env with ⟨ga, rg, ae, stderrv, re, pe, de⟩
  cases ga <;> cases rg <;> by_cases hae : ae = 0 <;>
    rcases hb : body (worktreeTarget td ref) with _ | e <;>
    simp [tmp_worktree, _assert_git_repo, hae, hb,
      addFailMsg_ne_gitMissing stderrv, (addFailMsg_ne_gitMissing stderrv).symm]

/-- C5 witness: with git absent the run stops at the executable check
with the configuration error. -/
theorem claim_C5_witness :
    tmp_worktree ⟨false, true, 0, "", 0, 0, 0⟩ "r" "v1" "/tmp/t" (fun _ => .normal) =
      ([.checkGitExists false], .exc (.runtimeError gitMissingMsg)) :=
  (claim_C5_entry_protocol ⟨false, true, 0, "", 0, 0, 0⟩ "r" "v1" "/tmp/t"
    (fun _ => .normal)).1 rfl

theorem sepfree_append_inj (c : Char) :
    ∀ (s1 s2 r1 r2 : List Char), c ∉ s1 → c ∉ s2 →
      s1 ++ c :: r1 = s2 ++ c :: r2 → s1 = s2 := by
  intro s1
  induction s1 with
  | nil =>
    intro s2 r1 r2 h1 h2 h
    cases s2 with
    | nil => rfl
    | cons d t =>
      rw [List.nil_append, List.cons_append] at h
      injection h with hc htl
      exact absurd (by rw [hc]; exact List.mem_cons_self d t) h2
  | cons a t ih =>
    intro s2 r1 r2 h1 h2 h
    cases s2 with
    | nil =>
      rw [List.nil_append, List.cons_append] at h
      injection h with hc htl
      exact absurd (by rw [← hc]; exact List.mem_cons_self a t) h1
    | cons d u =>
      rw [List.cons_append, List.cons_append] at h
      injection h with hc htl
      have ht : t = u := ih u r1 r2 (fun hm => h1 (List.mem_cons_of_mem a hm))
        (fun hm => h2 (List.mem_cons_of_mem d hm)) htl
      rw [hc, ht]

/-- C8: the branch/worktree identifier is the fixed prefix joined to
the reference by an underscore, and two acquisitions whose fresh
temporary directories carry different separator-free random suffixes
yield different worktree directory paths, whatever the references
are. -/
theorem claim_C8_deterministic_uid_fresh_target :
    (∀ ref, worktreeUid ref = "griffe_" ++ ref) ∧
    (∀ base s1 s2 ref1 ref2 : String, s1 ≠ s2 →
      '/' ∉ s1.data → '/' ∉ s2.data →
      worktreeTarget (tempDirName base s1) ref1 ≠
        worktreeTarget (tempDirName base s2) ref2) := by
  constructor
  · intro ref
    rfl
  · intro base s1 s2 ref1 ref2 hne h1 h2 hcontra
    apply hne
    have hdata : (worktreeTarget (tempDirName base s1) ref1).data =
        (worktreeTarget (tempDirName base s2) ref2).data := by rw [hcontra]
    simp only [worktreeTarget, tempDirName, worktreeUid, String.data_append,
      List.append_assoc] at hdata
    have hcancel := List.append_cancel_left hdata
    have hcancel2 := List.append_cancel_left hcancel
    rw [List.singleton_append, List.singleton_append] at hcancel2
    have hd : s1.data = s2.data :=
      sepfree_append_inj (Char.ofNat 47) s1.data s2.data _ _ h1 h2 hcancel2
    exact String.ext hd

/-- C8 witness: two acquisitions with distinct random suffixes for the
same reference yield distinct worktree paths. -/
theorem claim_C8_witness :
    worktreeTarget (tempDirName "/tmp" "a1") "v1" ≠
      worktreeTarget (tempDirName "/tmp" "b2") "v1" :=
  claim_C8_deterministic_uid_fresh_target.2 "/tmp" "a1" "b2" "v1" "v1"
    (by decide) (by decide) (by decide)

end Griffe
